import Mathlib

/-!
Verification of the `tcap` CLI (`src/tcap/tcap.py`): a tool that appends a
short still-image segment to the end of an MP4 file.

The development shallowly embeds the pure decision logic of the program:
  * the numeric parsing helpers `_fraction_to_float` / `_is_reasonable_fps`
    and the frame-rate selection logic of `ffprobe_props`;
  * the probe itself, as a function of the (structured) responses of the
    external `ffprobe` tool, which are modelled as explicit inputs;
  * the fast-path compatibility gate `can_concat_copy` and the path
    dispatch of `append_thumbnail`, with the success/failure of each
    external `ffmpeg` invocation modelled as an explicit boolean input;
  * the concat list-file text written by `_concat_copy`;
  * the in-place temp-file discipline of `main`, over a small
    association-list model of the relevant directory contents.

Python floats are modelled as rationals (`ℚ`); every value the program
manipulates on the paths verified here is an exact short decimal or a
ratio of such, so no rounding behaviour is lost.
-/

/-! ## Basic string / numeric helpers -/

/-- The single-quote character (ASCII 39). -/
def squoteChar : Char := Char.ofNat 39

/-- The single-quote character as a one-character string. -/
def squote : String := String.singleton squoteChar

/-- Numeric value of a run of decimal digit characters. -/
def digitsVal (cs : List Char) : ℕ :=
  cs.foldl (fun a c => 10 * a + (c.toNat - 48)) 0

/-- Model of Python `float(s)` on the inputs `tcap` feeds it: optionally
signed plain decimal literals such as `"30"`, `"-2"`, `"29.97"`, `"1."`,
`".5"`.  Any other input (empty, `"N/A"`, text, a stray `/`, ...) yields
`none`, modelling the `ValueError` branch.  (Exponent notation and
`inf`/`nan` literals are not modelled; the call sites in `tcap.py` filter
the `inf`/`nan` spellings out before calling `float`.) -/
def pyFloatChars (cs : List Char) : Option ℚ :=
  let signed : Bool × List Char :=
    match cs with
    | c :: rest =>
      if c = '-' then (true, rest)
      else if c = '+' then (false, rest)
      else (false, cs)
    | [] => (false, [])
  let neg := signed.1
  let body := signed.2
  let ip := body.takeWhile Char.isDigit
  let rest := body.dropWhile Char.isDigit
  match rest with
  | [] =>
    if ip = [] then none
    else some (if neg then -(digitsVal ip : ℚ) else (digitsVal ip : ℚ))
  | c :: frac =>
    if c = '.' ∧ frac.all Char.isDigit ∧ ¬(ip = [] ∧ frac = []) then
      let m : ℚ := (digitsVal ip : ℚ) + (digitsVal frac : ℚ) / ((10 : ℚ) ^ frac.length)
      some (if neg then -m else m)
    else none

/-- `pyFloat` on a `String`. -/
def pyFloat (s : String) : Option ℚ := pyFloatChars s.toList

/-! ## `_fraction_to_float` (tcap.py lines 47-64) -/

/-- Embeds `_fraction_to_float`: convert ffprobe fraction strings
(e.g. `"30000/1001"`) to numbers.  `none` both for an absent field and for
the unparsable/guarded cases (`""`, `"0/0"`, `"N/A"`, `"nan"`, `"inf"`,
`"-inf"`, a zero denominator, a component `float` cannot parse). -/
def _fraction_to_float (value : Option String) : Option ℚ :=
  match value with
  | none => none
  | some v =>
    if v = "" ∨ v = "0/0" ∨ v = "N/A" ∨ v = "nan" ∨ v = "inf" ∨ v = "-inf" then
      none
    else
      let cs := v.toList
      if cs.contains '/' then
        let num := cs.takeWhile (fun c => ¬ c = '/')
        let den := (cs.dropWhile (fun c => ¬ c = '/')).drop 1
        match pyFloatChars num, pyFloatChars den with
        | some num_f, some den_f => if den_f = 0 then none else some (num_f / den_f)
        | _, _ => none
      else
        pyFloatChars cs

/-! ## `_is_reasonable_fps` (tcap.py lines 67-69) and fps selection -/

/-- Embeds `_is_reasonable_fps`: heuristic guardrail for fps values that
are usable for concat copy. -/
def _is_reasonable_fps (value : Option ℚ) : Bool :=
  match value with
  | none => false
  | some v => decide (1 ≤ v) && decide (v ≤ 360)

/-- The candidate-scanning core of the fps selection in `ffprobe_props`
(tcap.py lines 182-196): first loop takes the first reasonable candidate,
the `for`-`else` second loop takes the first candidate `≥ 1.0` clamped to
`360.0`, and otherwise the initial default `30.0` stands. -/
def pick_fps (valid_candidates : List ℚ) : ℚ :=
  match valid_candidates.find? (fun v => _is_reasonable_fps (some v)) with
  | some c => c
  | none =>
    match valid_candidates.find? (fun v => decide (1 ≤ v)) with
    | some c => min c 360
    | none => 30

/-- The `valid_candidates` list of `ffprobe_props` (tcap.py line 183):
`[val for val in fps_candidates if val and val > 0]` — the parsed
candidates that are truthy (non-`None`, non-zero) and positive. -/
def valid_fps_candidates (fps_candidates : List (Option ℚ)) : List ℚ :=
  (fps_candidates.filterMap id).filter (fun v => decide (0 < v))

/-- Embeds the fps selection of `ffprobe_props` (tcap.py lines 182-199),
as a function of the raw candidate list: filter to the truthy positive
candidates, scan them with `pick_fps`, then apply the final
short-duration guard `if duration and duration < 1.0 and fps < 1.0`. -/
def select_fps (fps_candidates : List (Option ℚ)) (duration : ℚ) : ℚ :=
  if duration ≠ 0 ∧ duration < 1 ∧ pick_fps (valid_fps_candidates fps_candidates) < 1 then 30
  else pick_fps (valid_fps_candidates fps_candidates)

/-! ## The probe `ffprobe_props` (tcap.py lines 115-221) -/

/-- The fields of `streams[0]` that `ffprobe_props` requests from the
probing tool (`stream=width,height,duration,avg_frame_rate,r_frame_rate,nb_frames`).
ffprobe reports `width`/`height` as JSON integers (the program's
`int(...)` conversion is the identity on them) and the other fields as
strings, each possibly absent. -/
structure StreamFields where
  width : Int
  height : Int
  duration : Option String
  avg_frame_rate : Option String
  r_frame_rate : Option String
  nb_frames : Option String
deriving DecidableEq, Repr

/-- The result record of the probe (tcap.py lines 81-87). -/
structure VideoInfo where
  width : Int
  height : Int
  fps : ℚ
  duration : ℚ
  has_audio : Bool
deriving DecidableEq, Repr

/-- The responses of the external probing tool consumed by one
`ffprobe_props` call, modelled as data:
  * `streams`: the `streams` array of the first (video) probe;
  * `format_duration`: the parsed result of the separate
    `format=duration` probe, `none` when that probe or its `float(...)`
    parse fails (the `except Exception` branch);
  * `audio_has_streams`: whether the audio probe reported any stream,
    `none` when the audio probe itself failed (the `except` branch that
    degrades to "no audio"). -/
structure ProbeEnv where
  streams : List StreamFields
  format_duration : Option ℚ
  audio_has_streams : Option Bool
deriving DecidableEq, Repr

/-- Failure modes of the probe that the embedding distinguishes. -/
inductive ProbeError where
  | fileNotFound
  | noVideoStream
deriving DecidableEq, Repr

/-- The `field and field not in {"N/A", "nan"}`-guarded `float(...)`
pattern used for the stream `duration` (lines 141-146) and `nb_frames`
(lines 172-177) fields. -/
def parse_float_field (field : Option String) : Option ℚ :=
  match field with
  | none => none
  | some s => if s = "" ∨ s = "N/A" ∨ s = "nan" then none else pyFloat s

/-- The duration computation of `ffprobe_props` (lines 140-165): use the
stream duration when it parses to a positive number, otherwise fall back
to the container-level `format=duration` probe, defaulting to `0.0` when
that fails too. -/
def probe_duration (stream : StreamFields) (format_duration : Option ℚ) : ℚ :=
  match parse_float_field stream.duration with
  | some d => if d ≤ 0 then format_duration.getD 0 else d
  | none => format_duration.getD 0

/-- The fps candidate list of `ffprobe_props` (lines 167-180):
`avg_frame_rate` and `r_frame_rate` through `_fraction_to_float`, plus
`nb_frames / duration` when both are positive. -/
def probe_fps_candidates (stream : StreamFields) (duration : ℚ) : List (Option ℚ) :=
  [_fraction_to_float stream.avg_frame_rate, _fraction_to_float stream.r_frame_rate] ++
    (match parse_float_field stream.nb_frames with
     | some nb => if 0 < nb ∧ 0 < duration then [some (nb / duration)] else []
     | none => [])

/-- Embeds `ffprobe_props` (tcap.py lines 115-221) as a function of the
file's existence and the probing tool's responses.  Note that `width` and
`height` are taken from the stream verbatim (`int(stream["width"])`,
line 138) with no further validation. -/
def ffprobe_props (file_exists : Bool) (env : ProbeEnv) : Except ProbeError VideoInfo :=
  if file_exists = false then .error .fileNotFound
  else
    match env.streams.head? with
    | none => .error .noVideoStream
    | some stream =>
      .ok ⟨stream.width, stream.height,
        select_fps (probe_fps_candidates stream (probe_duration stream env.format_duration))
          (probe_duration stream env.format_duration),
        probe_duration stream env.format_duration,
        env.audio_has_streams.getD false⟩

/-! ## `_concat_copy` list-file text (tcap.py lines 296-302) -/

/-- The exact text written to the concat demuxer's list file by
`_concat_copy` (line 300): the Python f-string
`f"file '{input_mp4.resolve()}'\nfile '{still_mp4.resolve()}'\n"`,
as a function of the two (already resolved) path strings. -/
def concat_list_text (input_mp4 still_mp4 : String) : String :=
  "file " ++ squote ++ input_mp4 ++ squote ++ "\n" ++
    "file " ++ squote ++ still_mp4 ++ squote ++ "\n"

/-- Modelled from the spec: the escaping the spec claims for embedded
quote characters in concat list paths ("embedded quotes escaped by
doubling-and-escaping", i.e. a quote becomes quote-backslash-quote-quote).
`tcap.py` itself contains no such escaping; this definition exists only to
state the spec's claimed format for comparison. -/
def spec_escape_quotes (s : String) : String :=
  String.mk (s.toList.foldr
    (fun c acc => (if c = squoteChar then [squoteChar, '\\', squoteChar, squoteChar] else [c]) ++ acc)
    [])

/-- Modelled from the spec: the list-file text the spec describes (one
single-quoted literal path per line, embedded quotes escaped by
doubling-and-escaping). -/
def spec_concat_list_text (input_mp4 still_mp4 : String) : String :=
  "file " ++ squote ++ spec_escape_quotes input_mp4 ++ squote ++ "\n" ++
    "file " ++ squote ++ spec_escape_quotes still_mp4 ++ squote ++ "\n"

/-! ## The compatibility gate and path dispatch of `append_thumbnail`
(tcap.py lines 304-407) -/

/-- Embeds the fast-path compatibility gate (tcap.py lines 352-356):

    can_concat_copy = (
        allow_copy_concat
        and (vcodec == "h264")
        and (not info.has_audio or acodec == "aac")
    )

`vcodec` / `acodec` are `None` when the respective probe reported no such
field (in Python, `None == "h264"` is `False`). -/
def can_concat_copy (allow_copy_concat : Bool) (vcodec : Option String)
    (has_audio : Bool) (acodec : Option String) : Bool :=
  allow_copy_concat && decide (vcodec = some "h264") &&
    (!has_audio || decide (acodec = some "aac"))

/-- The observable outcome of one `append_thumbnail` call, including which
path ran.  In the `fallbackRan*` constructors the flag records whether the
fallback ran after a failed fast-path concat attempt (`true`) or directly
because the gate was closed (`false`). -/
inductive AppendResult where
  | fileNotFound
  | probeError
  | stillEncodeError
  | fastCopyOk
  | fallbackRanOk (afterFastFail : Bool)
  | fallbackRanError (afterFastFail : Bool)
deriving DecidableEq, Repr

/-- Whether the fast path (still-encode + concat-copy attempt) was
entered. -/
def AppendResult.tookFastPath : AppendResult → Bool
  | .stillEncodeError => true
  | .fastCopyOk => true
  | .fallbackRanOk b => b
  | .fallbackRanError b => b
  | _ => false

/-- Whether the full re-encode fallback (the `filter_complex` command,
tcap.py lines 377-407) was run. -/
def AppendResult.ranFallback : AppendResult → Bool
  | .fallbackRanOk _ => true
  | .fallbackRanError _ => true
  | _ => false

/-- Whether the call raised (any exception surfacing to the caller). -/
def AppendResult.isFailure : AppendResult → Bool
  | .fileNotFound => true
  | .probeError => true
  | .stillEncodeError => true
  | .fallbackRanError _ => true
  | _ => false

/-- Embeds the control flow of `append_thumbnail` (tcap.py lines 304-407)
as a function of:
  * the existence of the two input files;
  * the probing tool's responses (`penv`, consumed by `ffprobe_props`);
  * `vcodec` — `codec_name` from the extra video probe (line 336) and
    `ameta_codec` — `codec_name` from the extra audio probe (line 347),
    each `none` when the probe response lacks the field;
  * the `allow_copy_concat` flag;
  * the success of each external `ffmpeg` invocation: the still-clip
    encode (`still_ok`), the concat-copy (`concat_ok`), and the fallback
    re-encode (`fallback_ok`).

Control-flow facts embedded from the source: `acodec` is read only when
`info.has_audio` (line 334); a `CommandError` from `_encode_still_clip`
propagates (it is outside the `try`); a `CommandError` from
`_concat_copy` is caught and falls through to the fallback re-encode
(lines 370-375); the fallback's own failure propagates (line 407). -/
def append_thumbnail (mp4_exists png_exists : Bool) (penv : ProbeEnv)
    (vcodec ameta_codec : Option String) (allow_copy_concat : Bool)
    (still_ok concat_ok fallback_ok : Bool) : AppendResult :=
  if mp4_exists = false then .fileNotFound
  else if png_exists = false then .fileNotFound
  else
    match ffprobe_props mp4_exists penv with
    | .error _ => .probeError
    | .ok info =>
      let acodec := if info.has_audio then ameta_codec else none
      if can_concat_copy allow_copy_concat vcodec info.has_audio acodec then
        if still_ok = false then .stillEncodeError
        else if concat_ok then .fastCopyOk
        else if fallback_ok then .fallbackRanOk true
        else .fallbackRanError true
      else if fallback_ok then .fallbackRanOk false
      else .fallbackRanError false

/-! ## The in-place output discipline of `main` (tcap.py lines 518-548)

The relevant directory contents are modelled as an association list from
paths to file contents; a path is a directory plus a file name.  The only
paths `main`'s in-place branch touches are the destination `mp4` and the
temporary file `NamedTemporaryFile` creates next to it. -/

/-- A file path, split into the containing directory and the file name. -/
structure TPath where
  dir : String
  name : String
deriving DecidableEq, Repr

/-- Directory contents: the files that exist, with their contents. -/
def FS : Type := List (TPath × String)

/-- The content at `p`, `none` when no such file exists. -/
def fsLookup (fs : FS) (p : TPath) : Option String :=
  match fs with
  | [] => none
  | (q, c) :: rest => if q = p then some c else fsLookup rest p

/-- Remove the file at `p` (models `Path.unlink`, with a missing file
tolerated as in the `except FileNotFoundError: pass` branch). -/
def fsErase (fs : FS) (p : TPath) : FS :=
  match fs with
  | [] => []
  | (q, c) :: rest => if q = p then fsErase rest p else (q, c) :: fsErase rest p

/-- Create or overwrite the file at `p` with content `c`. -/
def fsWrite (fs : FS) (p : TPath) (c : String) : FS :=
  (p, c) :: fsErase fs p

/-- Models `Path.replace`: atomically move the file at `src` onto `dst`. -/
def fsReplace (fs : FS) (src dst : TPath) : FS :=
  match fsLookup fs src with
  | some c => fsWrite (fsErase fs src) dst c
  | none => fs

/-- What the `append_thumbnail` stage does to the staged output file, as
seen by `main`: on success it leaves the finished video at the staged
path; on failure it raises, possibly leaving partial tool output there
(`none` = nothing written beyond the empty temp file). -/
inductive AppendEffect where
  | ok (content : String)
  | fail (partialContent : Option String)

/-- Embeds the `--inplace` branch of `main` (tcap.py lines 518-548):
create a named temporary file in the SAME directory as the input `mp4`
(`dir=str(mp4.parent)`, `delete=False`); run `append_thumbnail` with the
temp path as output; on success atomically replace the original
(`tmp_path.replace(mp4)`); on any exception unlink the temp file and
re-raise.  Returns the final directory contents and whether the run
succeeded. -/
def main_inplace (fs : FS) (mp4 : TPath) (tmp_name : String) (eff : AppendEffect) : FS × Bool :=
  match eff with
  | .ok c =>
    (fsReplace (fsWrite (fsWrite fs ⟨mp4.dir, tmp_name⟩ "") ⟨mp4.dir, tmp_name⟩ c)
      ⟨mp4.dir, tmp_name⟩ mp4, true)
  | .fail (some c) =>
    (fsErase (fsWrite (fsWrite fs ⟨mp4.dir, tmp_name⟩ "") ⟨mp4.dir, tmp_name⟩ c)
      ⟨mp4.dir, tmp_name⟩, false)
  | .fail none =>
    (fsErase (fsWrite fs ⟨mp4.dir, tmp_name⟩ "") ⟨mp4.dir, tmp_name⟩, false)

/-! ## Concrete probe fixtures used by witnesses and counterexamples -/

/-- A typical healthy source: 1920x1080, 30 fps, 10 s, no audio. -/
def stream0 : StreamFields := ⟨1920, 1080, some "10", some "30/1", some "30/1", none⟩

/-- Probe responses for `stream0`. -/
def penv0 : ProbeEnv := ⟨[stream0], some 10, some false⟩

/-- The probe result for `penv0`. -/
def info0 : VideoInfo := ⟨1920, 1080, 30, 10, false⟩

/-- A source whose two frame-rate fields parse but are both below 1.0. -/
def stream1 : StreamFields := ⟨1920, 1080, some "10", some "1/2", some "1/2", none⟩

/-- Probe responses for `stream1`. -/
def penv1 : ProbeEnv := ⟨[stream1], some 10, some false⟩

example : pyFloat "30" = some 30 := by
  simp +decide [pyFloat, pyFloatChars, digitsVal]
example : pyFloat "29.97" = some (2997 / 100) := by
  simp +decide [pyFloat, pyFloatChars, digitsVal]
  norm_num
example : pyFloat "" = none := by
  simp +decide [pyFloat, pyFloatChars]
example : pyFloat "N/A" = none := by
  simp +decide [pyFloat, pyFloatChars]
example : _fraction_to_float (some "30000/1001") = some (30000 / 1001) := by
  simp +decide [_fraction_to_float, pyFloatChars, digitsVal]
example : _fraction_to_float (some "0/0") = none := by
  simp +decide [_fraction_to_float]
example : _fraction_to_float (some "5/0") = none := by
  simp +decide [_fraction_to_float, pyFloatChars, digitsVal]
example : select_fps [some 500] 10 = 360 := by
  simp +decide [select_fps, valid_fps_candidates, pick_fps, _is_reasonable_fps, List.find?,
    List.filter]
example : select_fps [none, none] 10 = 30 := by
  simp +decide [select_fps, valid_fps_candidates, pick_fps, List.find?, List.filter]
example : select_fps [some (1/2)] 10 = 30 := by
  simp +decide [select_fps, valid_fps_candidates, pick_fps, _is_reasonable_fps, List.find?,
    List.filter]
  norm_num
example : ffprobe_props true penv0 = .ok info0 := by
  simp +decide [ffprobe_props, penv0, stream0, info0, probe_duration, probe_fps_candidates,
    parse_float_field, _fraction_to_float, pyFloat, pyFloatChars, digitsVal, select_fps,
    valid_fps_candidates, pick_fps, _is_reasonable_fps, List.find?, List.filter]

/-! ## Helper lemmas -/

theorem pick_fps_mem_bounds (l : List ℚ) : 1 ≤ pick_fps l ∧ pick_fps l ≤ 360 := by
  unfold pick_fps
  cases hf : l.find? (fun v => _is_reasonable_fps (some v)) with
  | some c =>
    have hc := List.find?_some hf
    simp [_is_reasonable_fps] at hc
    exact hc
  | none =>
    cases hg : l.find? (fun v => decide (1 ≤ v)) with
    | some c =>
      have hc := List.find?_some hg
      simp at hc
      exact ⟨le_min hc (by norm_num), min_le_right _ _⟩
    | none => norm_num

theorem select_fps_mem_bounds (cands : List (Option ℚ)) (d : ℚ) :
    1 ≤ select_fps cands d ∧ select_fps cands d ≤ 360 := by
  unfold select_fps
  have h := pick_fps_mem_bounds (valid_fps_candidates cands)
  split
  · norm_num
  · exact h

theorem pick_fps_eq_30_of_lt_one (l : List ℚ) (h : ∀ v ∈ l, v < 1) : pick_fps l = 30 := by
  have h1 : l.find? (fun v => _is_reasonable_fps (some v)) = none := by
    rw [List.find?_eq_none]
    intro x hx
    have hlt := h x hx
    have hx1 : ¬ (1 : ℚ) ≤ x := by linarith
    simp [_is_reasonable_fps, hx1]
  have h2 : l.find? (fun v => decide (1 ≤ v)) = none := by
    rw [List.find?_eq_none]
    intro x hx
    have hlt := h x hx
    have hx1 : ¬ (1 : ℚ) ≤ x := by linarith
    simp [hx1]
  unfold pick_fps
  rw [h1, h2]

theorem select_fps_eq_30_of_lt_one (cands : List (Option ℚ)) (d : ℚ)
    (h : ∀ v ∈ cands.filterMap id, v < 1) : select_fps cands d = 30 := by
  have hv : ∀ v ∈ valid_fps_candidates cands, v < 1 := by
    intro v hvmem
    exact h v (List.mem_filter.mp hvmem).1
  have hp := pick_fps_eq_30_of_lt_one _ hv
  unfold select_fps
  rw [hp]
  split <;> rfl

theorem ffprobe_props_ok_inv (fe : Bool) (env : ProbeEnv) (info : VideoInfo)
    (h : ffprobe_props fe env = .ok info) :
    ∃ stream, env.streams.head? = some stream ∧
      info = ⟨stream.width, stream.height,
        select_fps (probe_fps_candidates stream (probe_duration stream env.format_duration))
          (probe_duration stream env.format_duration),
        probe_duration stream env.format_duration,
        env.audio_has_streams.getD false⟩ := by
  unfold ffprobe_props at h
  split at h
  · exact absurd h (by simp)
  · cases hs : env.streams.head? with
    | none => rw [hs] at h; exact absurd h (by simp)
    | some stream =>
      rw [hs] at h
      simp only [Except.ok.injEq] at h
      exact ⟨stream, rfl, h.symm⟩

theorem probe_penv0 : ffprobe_props true penv0 = .ok info0 := by
  simp +decide [ffprobe_props, penv0, stream0, info0, probe_duration, probe_fps_candidates,
    parse_float_field, _fraction_to_float, pyFloat, pyFloatChars, digitsVal, select_fps,
    valid_fps_candidates, pick_fps, _is_reasonable_fps, List.find?, List.filter]

theorem probe_penv1 : ffprobe_props true penv1 = .ok info0 := by
  simp +decide [ffprobe_props, penv1, stream1, info0, probe_duration, probe_fps_candidates,
    parse_float_field, _fraction_to_float, pyFloat, pyFloatChars, digitsVal, select_fps,
    valid_fps_candidates, pick_fps, _is_reasonable_fps, List.find?, List.filter]
  norm_num

theorem fsLookup_fsErase_self (fs : FS) (p : TPath) : fsLookup (fsErase fs p) p = none := by
  induction fs with
  | nil => rfl
  | cons e rest ih =>
    obtain ⟨q, c⟩ := e
    by_cases hq : q = p
    · simp [fsErase, hq, ih]
    · simp [fsErase, fsLookup, hq, ih]

theorem fsLookup_fsErase_ne (fs : FS) (p q : TPath) (h : q ≠ p) :
    fsLookup (fsErase fs p) q = fsLookup fs q := by
  induction fs with
  | nil => rfl
  | cons e rest ih =>
    obtain ⟨r, c⟩ := e
    by_cases hr : r = p
    · have hpq : ¬ p = q := fun e2 => h e2.symm
      simp [fsErase, fsLookup, hr, hpq, ih]
    · simp [fsErase, fsLookup, hr, ih]

theorem fsLookup_fsWrite_self (fs : FS) (p : TPath) (c : String) :
    fsLookup (fsWrite fs p c) p = some c := by
  simp [fsWrite, fsLookup]

theorem fsLookup_fsWrite_ne (fs : FS) (p : TPath) (c : String) (q : TPath) (h : q ≠ p) :
    fsLookup (fsWrite fs p c) q = fsLookup fs q := by
  have hp : ¬ p = q := fun e => h e.symm
  simp [fsWrite, fsLookup, hp]
  exact fsLookup_fsErase_ne fs p q h

theorem can_concat_copy_cond (allow : Bool) (vcodec : Option String) (ha : Bool)
    (ameta : Option String) :
    can_concat_copy allow vcodec ha (if ha then ameta else none) = true
      ↔ (allow = true ∧ vcodec = some "h264" ∧ (ha = false ∨ ameta = some "aac")) := by
  cases allow <;> cases ha <;> simp [can_concat_copy]

theorem escape_foldr_no_quote (cs : List Char) (h : squoteChar ∉ cs) :
    cs.foldr
      (fun c acc => (if c = squoteChar then [squoteChar, '\\', squoteChar, squoteChar] else [c]) ++ acc)
      [] = cs := by
  induction cs with
  | nil => rfl
  | cons c rest ih =>
    have hc : ¬ c = squoteChar := fun e => h (by simp [e])
    have hr : squoteChar ∉ rest := fun m => h (by simp [m])
    simp [hc, ih hr]

theorem spec_escape_quotes_eq_self (s : String) (h : squoteChar ∉ s.toList) :
    spec_escape_quotes s = s := by
  unfold spec_escape_quotes
  rw [escape_foldr_no_quote _ h]
  cases s
  rfl

/-! ## The claims -/

/-- C9: for every probed source, regardless of how many frame-rate
candidates parse or what values they take, the `fps` field of the
`VideoInfo` returned by the probe lies in the closed interval
[1.0, 360.0]. -/
theorem fps_in_plausible_range (fe : Bool) (env : ProbeEnv) (info : VideoInfo)
    (h : ffprobe_props fe env = .ok info) : 1 ≤ info.fps ∧ info.fps ≤ 360 := by
  obtain ⟨stream, -, hinfo⟩ := ffprobe_props_ok_inv fe env info h
  rw [hinfo]
  exact select_fps_mem_bounds _ _

theorem fps_in_plausible_range_witness : 1 ≤ info0.fps ∧ info0.fps ≤ 360 :=
  fps_in_plausible_range true penv0 info0 probe_penv0

/-- C6 counterexample: a source whose frame-rate fields are both the
literal malformed string "0/0" but which reports a frame count
(`nb_frames = "200"` over 10 seconds) probes to fps = 20.0, not 30.0:
the code still appends `nb_frames / duration` as an fps candidate
(tcap.py lines 179-180), so the universal fps = 30.0 claim fails. -/
theorem zero_fraction_frame_count_cx :
    ffprobe_props true ⟨[⟨1920, 1080, some "10", some "0/0", some "0/0", some "200"⟩],
        some 10, some false⟩
      = .ok ⟨1920, 1080, 20, 10, false⟩ ∧ (20 : ℚ) ≠ 30 := by
  constructor
  · simp +decide [ffprobe_props, probe_duration, probe_fps_candidates, parse_float_field,
      _fraction_to_float, pyFloat, pyFloatChars, digitsVal, select_fps, valid_fps_candidates,
      pick_fps, _is_reasonable_fps, List.find?, List.filter]
    norm_num
  · norm_num

/-- C6 (amended): a source whose probed frame-rate fields are the literal
malformed string "0/0" does not crash the probe, and the
rational-to-float conversion treats a zero denominator (`"0/0"`, and
generally e.g. `"30/0"`) as unparsable rather than dividing by zero, so
the rate fields contribute no fps candidate; the resulting
`VideoInfo.fps` is the default 30.0 provided no usable candidate arises
from the frame count either (the `nb_frames / duration` candidate absent
or below 1.0) — otherwise the fps is taken from the frame count, as the
counterexample shows. -/
theorem zero_fraction_unparsable (w h : Int) (df nf : Option String) (fd : Option ℚ)
    (ad : Option Bool)
    (hnf : ∀ v ∈ (probe_fps_candidates ⟨w, h, df, some "0/0", some "0/0", nf⟩
      (probe_duration ⟨w, h, df, some "0/0", some "0/0", nf⟩ fd)).filterMap id, v < 1) :
    _fraction_to_float (some "0/0") = none ∧
    _fraction_to_float (some "30/0") = none ∧
    Except.map VideoInfo.fps
      (ffprobe_props true ⟨[⟨w, h, df, some "0/0", some "0/0", nf⟩], fd, ad⟩) = .ok 30 := by
  refine ⟨by simp +decide [_fraction_to_float],
    by simp +decide [_fraction_to_float, pyFloatChars, digitsVal], ?_⟩
  have hsel := select_fps_eq_30_of_lt_one _
    (probe_duration ⟨w, h, df, some "0/0", some "0/0", nf⟩ fd) hnf
  simp [ffprobe_props, Except.map, hsel]

theorem zero_fraction_unparsable_witness :
    _fraction_to_float (some "0/0") = none ∧
    _fraction_to_float (some "30/0") = none ∧
    Except.map VideoInfo.fps
      (ffprobe_props true ⟨[⟨1920, 1080, some "10", some "0/0", some "0/0", none⟩],
        some 10, some false⟩) = .ok 30 :=
  zero_fraction_unparsable 1920 1080 (some "10") none (some 10) (some false) (by
    intro v hv
    simp +decide [probe_fps_candidates, probe_duration, parse_float_field,
      _fraction_to_float, pyFloat, pyFloatChars, digitsVal] at hv)

/-- C5 counterexample: a source whose only parsable frame-rate candidate
is 500 (outside the plausible range [1.0, 360.0]) yields fps = 360.0
(the candidate clamped), not the safe default 30.0 the claim requires. -/
theorem fps_above_range_clamped_cx :
    ffprobe_props true ⟨[⟨1920, 1080, some "10", some "500/1", some "500/1", none⟩], some 10, some false⟩
      = .ok ⟨1920, 1080, 360, 10, false⟩ ∧ (360 : ℚ) ≠ 30 := by
  constructor
  · simp +decide [ffprobe_props, probe_duration, probe_fps_candidates, parse_float_field,
      _fraction_to_float, pyFloat, pyFloatChars, digitsVal, select_fps, valid_fps_candidates,
      pick_fps, _is_reasonable_fps, List.find?, List.filter]
  · norm_num

/-- C5 (amended): the probe's resulting fps is the safe default 30.0
whenever no frame-rate candidate is parsable or every parsable candidate
is below 1.0; a parsable candidate at or above 1.0 that exceeds the
plausible range is instead clamped to 360.0 (see the counterexample)
rather than replaced by 30.0. -/
theorem fps_default_when_no_usable_candidate (fe : Bool) (env : ProbeEnv)
    (stream : StreamFields) (info : VideoInfo)
    (hs : env.streams.head? = some stream)
    (h : ffprobe_props fe env = .ok info)
    (hlt : ∀ v ∈ (probe_fps_candidates stream
      (probe_duration stream env.format_duration)).filterMap id, v < 1) :
    info.fps = 30 := by
  obtain ⟨stream2, hs2, hinfo⟩ := ffprobe_props_ok_inv fe env info h
  have hst : stream2 = stream := by
    rw [hs] at hs2
    exact (Option.some.inj hs2).symm
  subst hst
  rw [hinfo]
  exact select_fps_eq_30_of_lt_one _ _ hlt

theorem fps_default_when_no_usable_candidate_witness : info0.fps = 30 :=
  fps_default_when_no_usable_candidate true penv1 stream1 info0 rfl probe_penv1 (by
    intro v hv
    simp +decide [probe_fps_candidates, probe_duration, parse_float_field, _fraction_to_float,
      pyFloat, pyFloatChars, digitsVal, penv1, stream1] at hv
    rw [hv]
    norm_num)

/-- C7 counterexample: a source stream reporting width 0 and height 0 is
accepted: the probe succeeds and returns a `VideoInfo` with
non-positive dimensions instead of failing. -/
theorem nonpositive_dims_accepted_cx :
    ffprobe_props true ⟨[⟨0, 0, some "10", some "30/1", some "30/1", none⟩], some 10, some false⟩
      = .ok ⟨0, 0, 30, 10, false⟩ ∧ ¬ ((0 : Int) > 0) := by
  constructor
  · simp +decide [ffprobe_props, probe_duration, probe_fps_candidates, parse_float_field,
      _fraction_to_float, pyFloat, pyFloatChars, digitsVal, select_fps, valid_fps_candidates,
      pick_fps, _is_reasonable_fps, List.find?, List.filter]
  · norm_num

/-- C7 (amended): the probe performs no positivity validation of the
dimensions: the `VideoInfo` it returns carries exactly the `width` and
`height` integers the probing tool reported, whether positive or not. -/
theorem dims_passed_through (fe : Bool) (env : ProbeEnv) (stream : StreamFields)
    (info : VideoInfo) (hs : env.streams.head? = some stream)
    (h : ffprobe_props fe env = .ok info) :
    info.width = stream.width ∧ info.height = stream.height := by
  obtain ⟨stream2, hs2, hinfo⟩ := ffprobe_props_ok_inv fe env info h
  have hst : stream2 = stream := by
    rw [hs] at hs2
    exact (Option.some.inj hs2).symm
  subst hst
  rw [hinfo]
  exact ⟨rfl, rfl⟩

theorem dims_passed_through_witness :
    info0.width = stream0.width ∧ info0.height = stream0.height :=
  dims_passed_through true penv0 stream0 info0 rfl probe_penv0

/-- C1: for every probed source, the fast path (stream-copy
concatenation) is taken if and only if stream-copy is allowed by
configuration, the source video codec is exactly "h264", and either the
source has no audio or its audio codec is exactly "aac"; every other
combination takes the full re-encode fallback. -/
theorem fast_path_iff_gate (penv : ProbeEnv) (vcodec ameta_codec : Option String)
    (allow still_ok concat_ok fallback_ok : Bool) (info : VideoInfo)
    (h : ffprobe_props true penv = .ok info) :
    ((append_thumbnail true true penv vcodec ameta_codec allow still_ok concat_ok
        fallback_ok).tookFastPath = true
      ↔ (allow = true ∧ vcodec = some "h264" ∧
          (info.has_audio = false ∨ ameta_codec = some "aac"))) ∧
    ((append_thumbnail true true penv vcodec ameta_codec allow still_ok concat_ok
        fallback_ok).tookFastPath = false →
      (append_thumbnail true true penv vcodec ameta_codec allow still_ok concat_ok
        fallback_ok).ranFallback = true) := by
  rw [← can_concat_copy_cond allow vcodec info.has_audio ameta_codec]
  cases hg : can_concat_copy allow vcodec info.has_audio
      (if info.has_audio then ameta_codec else none) with
  | false =>
    simp only [append_thumbnail, h]
    simp [hg]
    cases fallback_ok <;> simp [AppendResult.tookFastPath, AppendResult.ranFallback]
  | true =>
    simp only [append_thumbnail, h]
    simp [hg]
    cases still_ok <;> cases concat_ok <;> cases fallback_ok <;>
      simp [AppendResult.tookFastPath, AppendResult.ranFallback]

theorem fast_path_iff_gate_witness :
    ((append_thumbnail true true penv0 (some "h264") none true true true
        true).tookFastPath = true
      ↔ (true = true ∧ some "h264" = some "h264" ∧
          (info0.has_audio = false ∨ (none : Option String) = some "aac"))) ∧
    ((append_thumbnail true true penv0 (some "h264") none true true true
        true).tookFastPath = false →
      (append_thumbnail true true penv0 (some "h264") none true true true
        true).ranFallback = true) :=
  fast_path_iff_gate penv0 (some "h264") none true true true true info0 probe_penv0

/-- C3 counterexample: for a source whose video codec is "hevc" (not in
the allow-list) the append operation does not fail at all: it silently
runs the full re-encode fallback and (the fallback encode succeeding)
returns success.  No `UnsupportedCodecError` exists in this program. -/
theorem unsupported_codec_no_error_cx :
    append_thumbnail true true penv0 (some "hevc") none true true true true
      = .fallbackRanOk false ∧
    (AppendResult.fallbackRanOk false).isFailure = false := by
  constructor
  · simp +decide [append_thumbnail, probe_penv0, can_concat_copy, info0]
  · rfl

/-- C3 (amended): for every source whose video codec is not in the
allow-list (exactly "h264"), the append operation does not raise any
codec error: it never attempts the fast path and always runs the full
re-encode fallback, whose own success or failure alone determines the
outcome. -/
theorem unsupported_codec_falls_back (penv : ProbeEnv) (vcodec ameta_codec : Option String)
    (allow still_ok concat_ok fallback_ok : Bool) (info : VideoInfo)
    (h : ffprobe_props true penv = .ok info) (hv : vcodec ≠ some "h264") :
    append_thumbnail true true penv vcodec ameta_codec allow still_ok concat_ok fallback_ok
      = if fallback_ok then .fallbackRanOk false else .fallbackRanError false := by
  have hg : can_concat_copy allow vcodec info.has_audio
      (if info.has_audio then ameta_codec else none) = false := by
    simp [can_concat_copy, hv]
  simp [append_thumbnail, h, hg]

theorem unsupported_codec_falls_back_witness :
    append_thumbnail true true penv0 (some "hevc") none true true true false
      = if false then AppendResult.fallbackRanOk false else AppendResult.fallbackRanError false :=
  unsupported_codec_falls_back penv0 (some "hevc") none true true true false info0 probe_penv0
    (by simp)

/-- C4 counterexample: a fast-path invocation (gate open: h264, no
audio, copy allowed) whose copy-concat step fails does not signal an
error: it silently re-attempts via the full re-encode path and reports
success. -/
theorem concat_failure_silent_fallback_cx :
    append_thumbnail true true penv0 (some "h264") none true true false true
      = .fallbackRanOk true ∧
    (AppendResult.fallbackRanOk true).isFailure = false ∧
    (AppendResult.fallbackRanOk true).ranFallback = true := by
  refine ⟨?_, rfl, rfl⟩
  simp +decide [append_thumbnail, probe_penv0, can_concat_copy, info0]

/-- C4 (amended): on the fast path, a failure of the still-encode stage
propagates as an error without falling back; but a failure of the
copy-concat step is caught and silently re-attempted via the full
re-encode path, whose own outcome is then reported. -/
theorem fast_path_failure_policy (penv : ProbeEnv) (vcodec ameta_codec : Option String)
    (allow still_ok concat_ok fallback_ok : Bool) (info : VideoInfo)
    (h : ffprobe_props true penv = .ok info)
    (hg : can_concat_copy allow vcodec info.has_audio
      (if info.has_audio then ameta_codec else none) = true) :
    (still_ok = false →
      append_thumbnail true true penv vcodec ameta_codec allow still_ok concat_ok fallback_ok
        = .stillEncodeError) ∧
    (still_ok = true → concat_ok = false →
      append_thumbnail true true penv vcodec ameta_codec allow still_ok concat_ok fallback_ok
        = if fallback_ok then .fallbackRanOk true else .fallbackRanError true) := by
  constructor
  · intro hso
    simp [append_thumbnail, h, hg, hso]
  · intro hso hco
    simp [append_thumbnail, h, hg, hso, hco]

theorem fast_path_failure_policy_witness :
    (false = false →
      append_thumbnail true true penv0 (some "h264") none true false true true
        = AppendResult.stillEncodeError) ∧
    (false = true → true = false →
      append_thumbnail true true penv0 (some "h264") none true false true true
        = if true then AppendResult.fallbackRanOk true else AppendResult.fallbackRanError true) :=
  fast_path_failure_policy penv0 (some "h264") none true false true true info0 probe_penv0
    (by simp +decide [can_concat_copy, info0])

/-- C10: when the append operation is invoked with stream-copy
disallowed (`allow_copy_concat = False`), it takes the full re-encode
fallback path regardless of the source's video codec and audio codec. -/
theorem no_copy_concat_forces_fallback (penv : ProbeEnv) (vcodec ameta_codec : Option String)
    (still_ok concat_ok fallback_ok : Bool) (info : VideoInfo)
    (h : ffprobe_props true penv = .ok info) :
    append_thumbnail true true penv vcodec ameta_codec false still_ok concat_ok fallback_ok
      = if fallback_ok then .fallbackRanOk false else .fallbackRanError false := by
  have hg : can_concat_copy false vcodec info.has_audio
      (if info.has_audio then ameta_codec else none) = false := by
    simp [can_concat_copy]
  simp [append_thumbnail, h, hg]

theorem no_copy_concat_forces_fallback_witness :
    append_thumbnail true true penv0 (some "h264") (some "aac") false true true true
      = if true then AppendResult.fallbackRanOk false else AppendResult.fallbackRanError false :=
  no_copy_concat_forces_fallback penv0 (some "h264") (some "aac") true true true info0
    probe_penv0

/-- C2: in in-place mode the temporary output file is created in the same
directory as the destination; if the append stage fails (with or without
partial output left in the temp file), the run reports failure, the
destination's content is unchanged and no temp file remains; on success
the destination holds the new content; and no path other than the
destination and the temp file is ever touched, so the destination is only
modified by the single final replace on success. -/
theorem inplace_atomicity (fs : FS) (mp4 : TPath) (tmp_name : String)
    (h : tmp_name ≠ mp4.name) :
    (TPath.mk mp4.dir tmp_name).dir = mp4.dir ∧
    (∀ pc, fsLookup (main_inplace fs mp4 tmp_name (.fail pc)).1 mp4 = fsLookup fs mp4 ∧
      fsLookup (main_inplace fs mp4 tmp_name (.fail pc)).1 ⟨mp4.dir, tmp_name⟩ = none ∧
      (main_inplace fs mp4 tmp_name (.fail pc)).2 = false) ∧
    (∀ c, fsLookup (main_inplace fs mp4 tmp_name (.ok c)).1 mp4 = some c ∧
      (main_inplace fs mp4 tmp_name (.ok c)).2 = true) ∧
    (∀ eff p, p ≠ mp4 → p ≠ ⟨mp4.dir, tmp_name⟩ →
      fsLookup (main_inplace fs mp4 tmp_name eff).1 p = fsLookup fs p) := by
  have htm : (⟨mp4.dir, tmp_name⟩ : TPath) ≠ mp4 := fun e => h (congrArg TPath.name e)
  have hmt : mp4 ≠ (⟨mp4.dir, tmp_name⟩ : TPath) := fun e => htm e.symm
  refine ⟨rfl, ?_, ?_, ?_⟩
  · intro pc
    cases pc with
    | none =>
      refine ⟨?_, ?_, rfl⟩
      · show fsLookup (fsErase (fsWrite fs ⟨mp4.dir, tmp_name⟩ "") ⟨mp4.dir, tmp_name⟩) mp4
          = fsLookup fs mp4
        rw [fsLookup_fsErase_ne _ _ _ hmt, fsLookup_fsWrite_ne _ _ _ _ hmt]
      · exact fsLookup_fsErase_self _ _
    | some c =>
      refine ⟨?_, ?_, rfl⟩
      · show fsLookup (fsErase (fsWrite (fsWrite fs ⟨mp4.dir, tmp_name⟩ "")
            ⟨mp4.dir, tmp_name⟩ c) ⟨mp4.dir, tmp_name⟩) mp4 = fsLookup fs mp4
        rw [fsLookup_fsErase_ne _ _ _ hmt, fsLookup_fsWrite_ne _ _ _ _ hmt,
          fsLookup_fsWrite_ne _ _ _ _ hmt]
      · exact fsLookup_fsErase_self _ _
  · intro c
    refine ⟨?_, rfl⟩
    show fsLookup (fsReplace (fsWrite (fsWrite fs ⟨mp4.dir, tmp_name⟩ "")
        ⟨mp4.dir, tmp_name⟩ c) ⟨mp4.dir, tmp_name⟩ mp4) mp4 = some c
    unfold fsReplace
    rw [fsLookup_fsWrite_self]
    exact fsLookup_fsWrite_self _ _ _
  · intro eff p hpm hpt
    cases eff with
    | ok c =>
      show fsLookup (fsReplace (fsWrite (fsWrite fs ⟨mp4.dir, tmp_name⟩ "")
          ⟨mp4.dir, tmp_name⟩ c) ⟨mp4.dir, tmp_name⟩ mp4) p = fsLookup fs p
      unfold fsReplace
      rw [fsLookup_fsWrite_self]
      show fsLookup (fsWrite (fsErase (fsWrite (fsWrite fs ⟨mp4.dir, tmp_name⟩ "")
          ⟨mp4.dir, tmp_name⟩ c) ⟨mp4.dir, tmp_name⟩) mp4 c) p = fsLookup fs p
      rw [fsLookup_fsWrite_ne _ _ _ _ hpm, fsLookup_fsErase_ne _ _ _ hpt,
        fsLookup_fsWrite_ne _ _ _ _ hpt, fsLookup_fsWrite_ne _ _ _ _ hpt]
    | fail pc =>
      cases pc with
      | none =>
        show fsLookup (fsErase (fsWrite fs ⟨mp4.dir, tmp_name⟩ "") ⟨mp4.dir, tmp_name⟩) p
          = fsLookup fs p
        rw [fsLookup_fsErase_ne _ _ _ hpt, fsLookup_fsWrite_ne _ _ _ _ hpt]
      | some c =>
        show fsLookup (fsErase (fsWrite (fsWrite fs ⟨mp4.dir, tmp_name⟩ "")
            ⟨mp4.dir, tmp_name⟩ c) ⟨mp4.dir, tmp_name⟩) p = fsLookup fs p
        rw [fsLookup_fsErase_ne _ _ _ hpt, fsLookup_fsWrite_ne _ _ _ _ hpt,
          fsLookup_fsWrite_ne _ _ _ _ hpt]

theorem inplace_atomicity_witness :
    (TPath.mk "d" "a_tmp.mp4").dir = (TPath.mk "d" "a.mp4").dir ∧
    (∀ pc, fsLookup (main_inplace [(⟨"d", "a.mp4"⟩, "orig")] ⟨"d", "a.mp4"⟩ "a_tmp.mp4"
        (.fail pc)).1 ⟨"d", "a.mp4"⟩ = fsLookup [(⟨"d", "a.mp4"⟩, "orig")] ⟨"d", "a.mp4"⟩ ∧
      fsLookup (main_inplace [(⟨"d", "a.mp4"⟩, "orig")] ⟨"d", "a.mp4"⟩ "a_tmp.mp4"
        (.fail pc)).1 ⟨"d", "a_tmp.mp4"⟩ = none ∧
      (main_inplace [(⟨"d", "a.mp4"⟩, "orig")] ⟨"d", "a.mp4"⟩ "a_tmp.mp4" (.fail pc)).2
        = false) ∧
    (∀ c, fsLookup (main_inplace [(⟨"d", "a.mp4"⟩, "orig")] ⟨"d", "a.mp4"⟩ "a_tmp.mp4"
        (.ok c)).1 ⟨"d", "a.mp4"⟩ = some c ∧
      (main_inplace [(⟨"d", "a.mp4"⟩, "orig")] ⟨"d", "a.mp4"⟩ "a_tmp.mp4" (.ok c)).2
        = true) ∧
    (∀ eff p, p ≠ ⟨"d", "a.mp4"⟩ → p ≠ ⟨"d", "a_tmp.mp4"⟩ →
      fsLookup (main_inplace [(⟨"d", "a.mp4"⟩, "orig")] ⟨"d", "a.mp4"⟩ "a_tmp.mp4" eff).1 p
        = fsLookup [(⟨"d", "a.mp4"⟩, "orig")] p) :=
  inplace_atomicity [(⟨"d", "a.mp4"⟩, "orig")] ⟨"d", "a.mp4"⟩ "a_tmp.mp4" (by decide)

/-- C8 counterexample: for an input path containing a single quote, the
concat list file is written with the raw, unescaped path between the
quotes — not with the doubling-and-escaping the claim describes. -/
theorem concat_list_no_escaping_cx :
    concat_list_text ("a" ++ squote ++ "b") "c"
      ≠ spec_concat_list_text ("a" ++ squote ++ "b") "c" ∧
    concat_list_text ("a" ++ squote ++ "b") "c"
      = "file " ++ squote ++ "a" ++ squote ++ "b" ++ squote ++ "\n"
        ++ "file " ++ squote ++ "c" ++ squote ++ "\n" := by
  constructor
  · decide
  · decide

/-- C8 (amended): the concatenation list file contains one single-quoted
literal file path per line, written verbatim with no escaping of
embedded quote characters; it coincides with the escaped format the spec
describes exactly when the paths contain no quote character. -/
theorem concat_list_lines (p q : String)
    (hp : squoteChar ∉ p.toList) (hq : squoteChar ∉ q.toList) :
    concat_list_text p q
      = ("file " ++ squote ++ p ++ squote ++ "\n")
        ++ ("file " ++ squote ++ q ++ squote ++ "\n") ∧
    concat_list_text p q = spec_concat_list_text p q := by
  have hnl : ∀ s : String, "\n" ++ ("file " ++ s) = "\nfile " ++ s := by
    intro s
    rw [← String.append_assoc]
    congr 1
  constructor
  · simp [concat_list_text, String.append_assoc, hnl]
  · simp [concat_list_text, spec_concat_list_text, spec_escape_quotes_eq_self p hp,
      spec_escape_quotes_eq_self q hq]

theorem concat_list_lines_witness :
    (concat_list_text "a" "b"
      = ("file " ++ squote ++ "a" ++ squote ++ "\n")
        ++ ("file " ++ squote ++ "b" ++ squote ++ "\n") ∧
    concat_list_text "a" "b" = spec_concat_list_text "a" "b") :=
  concat_list_lines "a" "b" (by decide) (by decide)
